import Mathlib

/-!
Verification of the festerize CLI (festerize.py) against its specification.

The embedding models one run of the `festerize` command as a pure function
over an explicit environment: the local filesystem, the outcome of the
availability precheck GET to `<server>/fester/status`, and the service
response to each upload POST.  Observable effects (upload POSTs performed,
output files written, error messages logged and echoed) are threaded through
an explicit run state.  An uncaught Python exception is modelled as a
distinguished `crashed` outcome.
-/

namespace Festerize

/-- Exit code NO_FILES_SPECIFIED of the FesterizeError IntEnum (line 129). -/
def NO_FILES_SPECIFIED : Nat := 1

/-- Exit code NONEXISTENT_FILE_SPECIFIED (line 130). -/
def NONEXISTENT_FILE_SPECIFIED : Nat := 2

/-- Exit code NON_CSV_FILE_SPECIFIED (line 131). -/
def NON_CSV_FILE_SPECIFIED : Nat := 3

/-- Exit code FESTER_UNAVAILABLE (line 132). -/
def FESTER_UNAVAILABLE : Nat := 4

/-- Exit code FESTER_ERROR_RESPONSE (line 133). -/
def FESTER_ERROR_RESPONSE : Nat := 5

/-- Exit code FILE_IO_ERROR (line 134). -/
def FILE_IO_ERROR : Nat := 6

/-- Helper for pathName: split a character list at every slash character. -/
def splitSlashAux : List Char → List Char → List (List Char)
  | [], acc => [acc.reverse]
  | c :: cs, acc =>
    if c = '/' then acc.reverse :: splitSlashAux cs [] else splitSlashAux cs (c :: acc)

/-- Helper for pathSuffix: index of the last dot in a character list. -/
def lastDotIdxAux : List Char → Nat → Option Nat → Option Nat
  | [], _, best => best
  | c :: cs, i, best => lastDotIdxAux cs (i + 1) (if c = '.' then some i else best)

/-- pathlib.Path(pathstring).name (line 187): the final path component, with
empty and single-dot components dropped, empty when no component remains. -/
def pathName (s : String) : String :=
  let comps := (splitSlashAux s.toList []).map String.mk
  ((comps.filter (fun c => !(c == "") && !(c == "."))).getLast?).getD ""

/-- pathlib suffix of a file name: the substring from the last dot onward,
provided that dot is neither the first nor the last character; empty
otherwise.  Used at line 198 as csv_filepath.suffix. -/
def pathSuffix (name : String) : String :=
  match lastDotIdxAux name.toList 0 none with
  | some i =>
    if 0 < i ∧ i + 1 < name.toList.length then String.mk (name.toList.drop i) else ""
  | none => ""

/-- os.path.join(out, name) as posixpath.join restricted to two components
(line 232). -/
def osPathJoin (a b : String) : String :=
  if b.toList.head? = some '/' then b
  else if a = "" then b
  else if a.toList.getLast? = some '/' then a ++ b
  else a ++ "/" ++ b

/-- The BeautifulSoup view of a response body used at lines 253-261:
errorMessage is the text of the element with id "error-message" when such an
element exists; title is the page title element when present, holding its
.string attribute (none for an empty or composite title). -/
structure HtmlPage where
  errorMessage : Option String
  title : Option (Option String)
deriving Repr, DecidableEq

/-- The page head and title both absent: the parse of a body with neither an
error-message element nor a title element. -/
def noPage : HtmlPage := { errorMessage := none, title := none }

/-- An HTTP response to the upload POST: status code, the optional
Content-Length header (line 224 reads it with a raising lookup), the raw body
bytes (r.content, line 233) and the parsed HTML view of the body text. -/
structure ServiceResponse where
  statusCode : Nat
  contentLength : Option String
  body : List Nat
  page : HtmlPage
deriving Repr, DecidableEq

/-- Python str() of the Optional string held by a title element: None renders
as the four-character text None inside the formatted message (line 259). -/
def pyStr : Option String → String
  | some s => s
  | none => "None"

/-- The error-cause extraction of lines 253-261.  The find on id
"error-message" returning no element raises AttributeError on get_text, which
is caught; the handler then reads soup.title.string, which itself raises an
uncaught AttributeError when the page has no title element: that path is the
error case. -/
def extractErrorCause (page : HtmlPage) : Except Unit String :=
  match page.errorMessage with
  | some t => Except.ok t
  | none =>
    match page.title with
    | some ts => Except.ok (pyStr ts ++ " - nginx")
    | none => Except.error ()

/-- The multipart POST built at lines 202-217: the file part carries the raw
pathstring as its filename together with the opened file bytes, and the form
fields carry iiif-version, the optional iiif-host and metadata-update. -/
structure UploadRequest where
  fileName : String
  fileBytes : List Nat
  iiifVersion : String
  iiifHost : Option String
  metadataUpdate : Bool
deriving Repr, DecidableEq

/-- The run configuration fixed at startup from the CLI options. -/
structure Config where
  strictMode : Bool
  out : String
  iiifApiVersion : String
  iiifhost : Option String
  metadataUpdate : Bool
deriving Repr, DecidableEq

/-- The environment one run observes: the local filesystem, whether the
output directory already exists and whether the user confirms reuse, the
outcome of the status GET (none models a connection-level RequestException,
some c a completed response with status c; statusExcText is the rendered
text of the raised exception), and the POST response per source path. -/
structure Env where
  fileExists : String → Bool
  fileBytes : String → List Nat
  outDirExists : Bool
  confirmContinue : Bool
  statusResp : Option Nat
  statusExcText : String
  uploadResp : String → ServiceResponse

/-- Observable state of a run: whether the status GET was attempted, the
upload POSTs performed in order, the output-file writes performed in order
(path and bytes; mode wb, so each write creates or truncates its file), and
the error messages both echoed to stderr and logged. -/
structure RunState where
  statusProbed : Bool
  uploads : List UploadRequest
  writes : List (String × List Nat)
  errors : List String
deriving Repr, DecidableEq

/-- The state at the start of a run. -/
def initState : RunState :=
  { statusProbed := false, uploads := [], writes := [], errors := [] }

/-- Record an error message (click.echo with err and logging.error). -/
def RunState.addError (st : RunState) (m : String) : RunState :=
  { st with errors := st.errors ++ [m] }

/-- Record an upload POST. -/
def RunState.addUpload (st : RunState) (u : UploadRequest) : RunState :=
  { st with uploads := st.uploads ++ [u] }

/-- Record a write of the given bytes to the given output path. -/
def RunState.addWrite (st : RunState) (path : String) (b : List Nat) : RunState :=
  { st with writes := st.writes ++ [(path, b)] }

/-- Outcome of processing one source path inside the loop. -/
inductive StepResult where
  | next (st : RunState)
  | exited (code : Nat) (st : RunState)
  | crashed (st : RunState)
deriving Repr, DecidableEq

/-- The state carried by a step outcome. -/
def StepResult.state : StepResult → RunState
  | StepResult.next st => st
  | StepResult.exited _ st => st
  | StepResult.crashed st => st

/-- Outcome of a whole run: normal completion of the loop, sys.exit with a
code, or an uncaught exception. -/
inductive RunResult where
  | finished (st : RunState)
  | exited (code : Nat) (st : RunState)
  | crashed (st : RunState)
deriving Repr, DecidableEq

/-- The state carried by a run outcome. -/
def RunResult.finalState : RunResult → RunState
  | RunResult.finished st => st
  | RunResult.exited _ st => st
  | RunResult.crashed st => st

/-- The sys.exit code of a run outcome, none for normal completion or crash. -/
def RunResult.exitCode : RunResult → Option Nat
  | RunResult.finished _ => none
  | RunResult.exited c _ => some c
  | RunResult.crashed _ => none

/-- Whether the loop completed normally. -/
def RunResult.isFinished : RunResult → Bool
  | RunResult.finished _ => true
  | _ => false

/-- Whether the run ended in an uncaught exception. -/
def RunResult.isCrashed : RunResult → Bool
  | RunResult.crashed _ => true
  | _ => false

/-- requests raise_for_status raises HTTPError exactly for status codes in
the 4xx and 5xx ranges (line 178). -/
def raiseForStatusFails (c : Nat) : Bool :=
  decide (400 ≤ c ∧ c < 600)

/-- Whether the availability precheck of lines 176-183 takes the except
branch: a connection-level exception, or raise_for_status raising. -/
def precheckFails : Option Nat → Bool
  | none => true
  | some c => raiseForStatusFails c

/-- Build the upload request of lines 202-217 for one source path. -/
def buildRequest (cfg : Config) (env : Env) (pathstring : String) : UploadRequest :=
  { fileName := pathstring
    fileBytes := env.fileBytes pathstring
    iiifVersion := "v" ++ cfg.iiifApiVersion
    iiifHost := cfg.iiifhost
    metadataUpdate := cfg.metadataUpdate }

/-- The composed failure message of lines 263-265. -/
def failureMessage (filename cause : String) (status : Nat) : String :=
  "Failed to upload " ++ filename ++ ": " ++ cause ++ " (HTTP " ++ toString status ++ ")"

/-- After logging a per-file error: sys.exit with the given code in strict
mode, otherwise fall through to the next iteration (lines 194-195, 240-241,
269-270, 276-277). -/
def stepAfterError (cfg : Config) (st : RunState) (code : Nat) : StepResult :=
  if cfg.strictMode then StepResult.exited code st else StepResult.next st

/-- Handling of the POST response, lines 215-270, for a path that passed both
local checks; st already records the upload.  On 201: the Content-Length
header is read with a raising lookup (line 227, KeyError when absent, modelled
as crashed), then the body is written to the output path; a zero-byte body is
reported as a write failure after the (empty) file was already created.  On
any other status the error cause is extracted; a page with neither an
error-message element nor a title makes the handler itself raise (crashed);
otherwise the composed message is logged and strict mode decides. -/
def processUpload (cfg : Config) (env : Env) (st : RunState) (pathstring : String) :
    StepResult :=
  let r := env.uploadResp pathstring
  if r.statusCode = 201 then
    if r.contentLength.isSome then
      let st1 := st.addWrite (osPathJoin cfg.out (pathName pathstring)) r.body
      if r.body.length = 0 then
        stepAfterError cfg
          (st1.addError ("Failed to write data to " ++ pathName pathstring)) FILE_IO_ERROR
      else
        StepResult.next st1
    else
      StepResult.crashed st
  else
    match extractErrorCause r.page with
    | Except.error _ => StepResult.crashed st
    | Except.ok cause =>
      stepAfterError cfg
        (st.addError (failureMessage (pathName pathstring) cause r.statusCode))
        FESTER_ERROR_RESPONSE

/-- One iteration of the upload loop, lines 185-277, for a single source
path: existence check, extension check, then upload and response handling. -/
def processFile (cfg : Config) (env : Env) (st : RunState) (pathstring : String) :
    StepResult :=
  if env.fileExists pathstring = false then
    stepAfterError cfg
      (st.addError ("File " ++ pathName pathstring ++ " does not exist"))
      NONEXISTENT_FILE_SPECIFIED
  else if pathSuffix (pathName pathstring) = ".csv" then
    processUpload cfg env (st.addUpload (buildRequest cfg env pathstring)) pathstring
  else
    stepAfterError cfg
      (st.addError ("File " ++ pathName pathstring ++ " is not a CSV"))
      NON_CSV_FILE_SPECIFIED

/-- The upload loop over the remaining source paths. -/
def runLoop (cfg : Config) (env : Env) : RunState → List String → RunResult
  | st, [] => RunResult.finished st
  | st, p :: rest =>
    match processFile cfg env st p with
    | StepResult.next st1 => runLoop cfg env st1 rest
    | StepResult.exited code st1 => RunResult.exited code st1
    | StepResult.crashed st1 => RunResult.crashed st1

/-- A whole run of the festerize command, lines 125-279: empty-source exit,
output-directory confirmation (click.confirm with abort raises Abort, which
click turns into exit status 1), the availability precheck, then the loop.
Directory creation and log-file setup are modelled as always succeeding. -/
def festerizeRun (cfg : Config) (env : Env) (src : List String) : RunResult :=
  if src.length = 0 then
    RunResult.exited NO_FILES_SPECIFIED
      (initState.addError "Please provide one or more CSV files")
  else if env.outDirExists && !env.confirmContinue then
    RunResult.exited 1 initState
  else
    let st0 : RunState := { initState with statusProbed := true }
    if precheckFails env.statusResp then
      RunResult.exited FESTER_UNAVAILABLE
        (st0.addError ("Fester IIIF manifest service unavailable: " ++ env.statusExcText))
    else
      runLoop cfg env st0 src

/-- Contents last written to a given output path during the run, none when
that file was never written (mode wb truncates, so the last write wins). -/
def readOutput (st : RunState) (path : String) : Option (List Nat) :=
  ((st.writes.filter (fun w => w.1 == path)).getLast?).map Prod.snd

/-- Whether some write created the given output path during the run. -/
def fileWritten (st : RunState) (path : String) : Bool :=
  st.writes.any (fun w => w.1 == path)

/-- The cause string asserted by the specification of the Response
Classifier: the text of the error-message element when the body contains one,
otherwise the title text followed by the fixed reverse-proxy marker; none
when the page fits neither described shape. -/
def specCause (page : HtmlPage) : Option String :=
  match page.errorMessage with
  | some t => some t
  | none =>
    match page.title with
    | some (some s) => some (s ++ " - nginx")
    | _ => none

/-- The failure-message format asserted by the specification. -/
def specFailureMessage (filename cause : String) (status : Nat) : String :=
  "Failed to upload " ++ filename ++ ": " ++ cause ++ " (HTTP " ++ toString status ++ ")"

/-- A non-strict run configuration with the default output directory. -/
def cfgN : Config :=
  { strictMode := false, out := "output", iiifApiVersion := "2", iiifhost := none,
    metadataUpdate := false }

/-- The same configuration in strict mode. -/
def cfgS : Config := { cfgN with strictMode := true }

/-- A plain successful upload response. -/
def okResp : ServiceResponse :=
  { statusCode := 201, contentLength := some "1", body := [97], page := noPage }

/-- A benign environment: every file exists with one byte of content, the
output directory is fresh, the precheck GET returns 200, uploads succeed. -/
def baseEnv : Env :=
  { fileExists := fun _ => true, fileBytes := fun _ => [97], outDirExists := false,
    confirmContinue := true, statusResp := some 200, statusExcText := "connection refused",
    uploadResp := fun _ => okResp }

/-- Environment whose uploads fail with a 400 whose error-message element
text says the client is outdated and must upgrade. -/
def envOutdated : Env :=
  { baseEnv with
    uploadResp := fun _ =>
      { statusCode := 400, contentLength := some "0", body := [],
        page := { errorMessage := some "Your client is outdated; please upgrade to continue",
                  title := none } } }

/-- Environment whose uploads fail with a 400 whose body parses to a page
with neither an error-message element nor a title element. -/
def envBarePage : Env :=
  { baseEnv with
    uploadResp := fun _ =>
      { statusCode := 400, contentLength := none, body := [60, 112, 62], page := noPage } }

/-- Environment whose uploads return 201 with an empty body and a
Content-Length header of 0. -/
def envEmptyBody : Env :=
  { baseEnv with
    uploadResp := fun _ =>
      { statusCode := 201, contentLength := some "0", body := [], page := noPage } }

/-- Environment whose precheck GET returns HTTP 304, a non-2xx status for
which raise_for_status does not raise. -/
def envStatus304 : Env := { baseEnv with statusResp := some 304 }

/-- Environment whose precheck GET raises a connection-level exception. -/
def envConnError : Env := { baseEnv with statusResp := none }

/-- Environment whose uploads fail with a 400 carrying an error-message
element reading Collection not found. -/
def envVertxError : Env :=
  { baseEnv with
    uploadResp := fun _ =>
      { statusCode := 400, contentLength := some "0", body := [],
        page := { errorMessage := some "Collection not found", title := none } } }

/-- Environment whose uploads fail with a 502 whose body only carries a
title element reading Bad Gateway. -/
def envNginxError : Env :=
  { baseEnv with
    uploadResp := fun _ =>
      { statusCode := 502, contentLength := some "0", body := [],
        page := { errorMessage := none, title := some (some "Bad Gateway") } } }

/-- Environment whose uploads return 201 with a one-byte body but no
Content-Length header. -/
def envNoContentLength : Env :=
  { baseEnv with
    uploadResp := fun _ =>
      { statusCode := 201, contentLength := none, body := [120], page := noPage } }

/-- Environment in which no file exists. -/
def envMissing : Env := { baseEnv with fileExists := fun _ => false }

/-- C9: for every run whose source list is empty, the process exits
immediately with the distinct no-files exit status, before the availability
precheck GET and before any upload POST. -/
theorem c9_empty_source_list (cfg : Config) (env : Env) :
    festerizeRun cfg env [] =
      RunResult.exited NO_FILES_SPECIFIED
        (initState.addError "Please provide one or more CSV files") ∧
    (festerizeRun cfg env []).finalState.statusProbed = false ∧
    (festerizeRun cfg env []).finalState.uploads = [] :=
  ⟨rfl, rfl, rfl⟩

/-- C7: a source path that does not resolve to an existing file is logged and
never uploaded; in strict mode the run exits immediately with the distinct
nonexistent-file exit status and no subsequent path is processed, while in
non-strict mode the loop continues with the remaining paths from the same
state plus the logged error. -/
theorem c7_nonexistent_path (cfg : Config) (env : Env) (st : RunState) (p : String)
    (rest : List String) (h : env.fileExists p = false) :
    (cfg.strictMode = true →
      runLoop cfg env st (p :: rest) =
        RunResult.exited NONEXISTENT_FILE_SPECIFIED
          (st.addError ("File " ++ pathName p ++ " does not exist"))) ∧
    (cfg.strictMode = false →
      runLoop cfg env st (p :: rest) =
        runLoop cfg env (st.addError ("File " ++ pathName p ++ " does not exist")) rest) := by
  constructor <;> intro hs <;> simp [runLoop, processFile, stepAfterError, h, hs]

/-- C7 witness: a concrete nonexistent path, in strict and non-strict mode. -/
theorem c7_nonexistent_path_witness :
    (runLoop cfgS envMissing initState ["ghost.csv", "b.csv"] =
      RunResult.exited NONEXISTENT_FILE_SPECIFIED
        (initState.addError ("File " ++ pathName "ghost.csv" ++ " does not exist"))) ∧
    (runLoop cfgN envMissing initState ["ghost.csv", "b.csv"] =
      runLoop cfgN envMissing
        (initState.addError ("File " ++ pathName "ghost.csv" ++ " does not exist"))
        ["b.csv"]) :=
  ⟨(c7_nonexistent_path cfgS envMissing initState "ghost.csv" ["b.csv"] rfl).1 rfl,
   (c7_nonexistent_path cfgN envMissing initState "ghost.csv" ["b.csv"] rfl).2 rfl⟩

/-- C8: an existing source file whose extension is not exactly .csv is logged
and never uploaded, whatever its content; in strict mode the run exits with
the distinct non-CSV exit status, while in non-strict mode the loop continues
with the remaining paths from the same state plus the logged error. -/
theorem c8_non_csv_extension (cfg : Config) (env : Env) (st : RunState) (p : String)
    (rest : List String) (hex : env.fileExists p = true)
    (hsuf : pathSuffix (pathName p) ≠ ".csv") :
    (cfg.strictMode = true →
      runLoop cfg env st (p :: rest) =
        RunResult.exited NON_CSV_FILE_SPECIFIED
          (st.addError ("File " ++ pathName p ++ " is not a CSV"))) ∧
    (cfg.strictMode = false →
      runLoop cfg env st (p :: rest) =
        runLoop cfg env (st.addError ("File " ++ pathName p ++ " is not a CSV")) rest) := by
  constructor <;> intro hs <;> simp [runLoop, processFile, stepAfterError, hex, hsuf, hs]

/-- C8 witness: report.txt in strict mode and the upper-case DATA.CSV in
non-strict mode, both existing files, are rejected without an upload. -/
theorem c8_non_csv_extension_witness :
    (runLoop cfgS baseEnv initState ["report.txt"] =
      RunResult.exited NON_CSV_FILE_SPECIFIED
        (initState.addError ("File " ++ pathName "report.txt" ++ " is not a CSV"))) ∧
    (runLoop cfgN baseEnv initState ["DATA.CSV", "b.csv"] =
      runLoop cfgN baseEnv
        (initState.addError ("File " ++ pathName "DATA.CSV" ++ " is not a CSV"))
        ["b.csv"]) :=
  ⟨(c8_non_csv_extension cfgS baseEnv initState "report.txt" [] rfl (by decide)).1 rfl,
   (c8_non_csv_extension cfgN baseEnv initState "DATA.CSV" ["b.csv"] rfl (by decide)).2 rfl⟩

/-- C1 counterexample: in non-strict mode, a 400 response whose extracted
cause says the client is outdated and must upgrade does not halt the loop:
the second source path is still uploaded and the loop ends normally. -/
theorem c1_counterexample :
    cfgN.strictMode = false ∧
    (envOutdated.uploadResp "a.csv").statusCode = 400 ∧
    extractErrorCause (envOutdated.uploadResp "a.csv").page =
      Except.ok "Your client is outdated; please upgrade to continue" ∧
    (festerizeRun cfgN envOutdated ["a.csv", "b.csv"]).isFinished = true ∧
    (festerizeRun cfgN envOutdated ["a.csv", "b.csv"]).finalState.uploads.length = 2 :=
  ⟨rfl, rfl, rfl, by decide, by decide⟩

/-- C1 amended: in non-strict mode, a non-201 response whose cause text is
successfully extracted never halts the loop, whatever the cause says: the
failure is logged and the loop continues with the remaining paths. -/
theorem c1_amended_no_halt (cfg : Config) (env : Env) (st : RunState) (p : String)
    (rest : List String) (c : String)
    (hns : cfg.strictMode = false)
    (hex : env.fileExists p = true)
    (hsuf : pathSuffix (pathName p) = ".csv")
    (hst : (env.uploadResp p).statusCode ≠ 201)
    (hc : extractErrorCause (env.uploadResp p).page = Except.ok c) :
    runLoop cfg env st (p :: rest) =
      runLoop cfg env
        ((st.addUpload (buildRequest cfg env p)).addError
          (failureMessage (pathName p) c (env.uploadResp p).statusCode)) rest := by
  simp [runLoop, processFile, processUpload, stepAfterError, hns, hex, hsuf, hst, hc]

/-- C1 amended witness: the outdated-client failure on the first path leaves
the non-strict loop continuing with the second path. -/
theorem c1_amended_no_halt_witness :
    runLoop cfgN envOutdated { initState with statusProbed := true } ["a.csv", "b.csv"] =
      runLoop cfgN envOutdated
        ((RunState.addUpload { initState with statusProbed := true }
            (buildRequest cfgN envOutdated "a.csv")).addError
          (failureMessage (pathName "a.csv")
            "Your client is outdated; please upgrade to continue"
            (envOutdated.uploadResp "a.csv").statusCode))
        ["b.csv"] :=
  c1_amended_no_halt cfgN envOutdated { initState with statusProbed := true } "a.csv"
    ["b.csv"] "Your client is outdated; please upgrade to continue" rfl rfl (by decide)
    (by decide) rfl

/-- C2: a non-201 response whose body has neither an error-message element
nor a title element makes the run terminate as an uncaught exception (the
fallback itself raises AttributeError at line 260), with no error logged for
the file, refuting the never-crash propagation policy. -/
theorem c2_parse_crash :
    (envBarePage.uploadResp "a.csv").page = noPage ∧
    (festerizeRun cfgN envBarePage ["a.csv", "b.csv"]).isCrashed = true ∧
    (festerizeRun cfgN envBarePage ["a.csv", "b.csv"]).finalState.errors = [] := by
  decide

/-- C4 counterexample: a precheck response of HTTP 304 is non-2xx, yet
raise_for_status does not raise, so the run proceeds and performs the upload
POST instead of exiting with the service-unavailable status. -/
theorem c4_counterexample :
    envStatus304.statusResp = some 304 ∧
    (festerizeRun cfgN envStatus304 ["a.csv"]).isFinished = true ∧
    (festerizeRun cfgN envStatus304 ["a.csv"]).finalState.uploads.length = 1 := by
  decide

/-- C4 amended: for every run with a non-empty source list that passes the
output-directory confirmation, a precheck connection error or a 4xx or 5xx
precheck status makes the process log and echo the error and exit with the
distinct service-unavailable status, with no upload POST performed. -/
theorem c4_amended_unavailable (cfg : Config) (env : Env) (src : List String)
    (hs : src ≠ [])
    (hdir : (env.outDirExists && !env.confirmContinue) = false)
    (hp : precheckFails env.statusResp = true) :
    festerizeRun cfg env src =
      RunResult.exited FESTER_UNAVAILABLE
        (RunState.addError { initState with statusProbed := true }
          ("Fester IIIF manifest service unavailable: " ++ env.statusExcText)) ∧
    (festerizeRun cfg env src).finalState.uploads = [] := by
  have hlen : src.length ≠ 0 := by simpa using hs
  refine ⟨by simp [festerizeRun, hlen, hdir, hp], ?_⟩
  simp [festerizeRun, hlen, hdir, hp, RunState.addError, initState, RunResult.finalState]

/-- C4 amended witness: a connection error on the precheck GET. -/
theorem c4_amended_unavailable_witness :
    festerizeRun cfgN envConnError ["a.csv"] =
      RunResult.exited FESTER_UNAVAILABLE
        (RunState.addError { initState with statusProbed := true }
          ("Fester IIIF manifest service unavailable: " ++ envConnError.statusExcText)) ∧
    (festerizeRun cfgN envConnError ["a.csv"]).finalState.uploads = [] :=
  c4_amended_unavailable cfgN envConnError ["a.csv"] (by decide) rfl rfl

/-- The per-file strict-mode dispatch does not change the run state. -/
theorem stepAfterError_state (cfg : Config) (st : RunState) (code : Nat) :
    (stepAfterError cfg st code).state = st := by
  unfold stepAfterError
  split <;> rfl

/-- Response handling never records an upload (the POST was already recorded
by the caller). -/
theorem processUpload_uploads (cfg : Config) (env : Env) (st : RunState) (p : String) :
    (processUpload cfg env st p).state.uploads = st.uploads := by
  by_cases h1 : (env.uploadResp p).statusCode = 201
  · by_cases h2 : (env.uploadResp p).contentLength.isSome = true
    · by_cases h3 : (env.uploadResp p).body.length = 0
      · simp [processUpload, h1, h2, h3, stepAfterError_state, RunState.addError,
          RunState.addWrite]
      · simp [processUpload, h1, h2, h3, StepResult.state, RunState.addWrite]
    · simp [processUpload, h1, h2, StepResult.state]
  · cases hE : extractErrorCause (env.uploadResp p).page with
    | error e => simp [processUpload, h1, hE, StepResult.state]
    | ok c =>
      simp [processUpload, h1, hE, stepAfterError_state, RunState.addError]

/-- Response handling appends exactly one write, of the body to the joined
output path, when the response is a 201 carrying a Content-Length header, and
records no write otherwise. -/
theorem processUpload_writes (cfg : Config) (env : Env) (st : RunState) (p : String) :
    (processUpload cfg env st p).state.writes =
      (if (env.uploadResp p).statusCode = 201 ∧
          (env.uploadResp p).contentLength.isSome = true
       then st.writes ++ [(osPathJoin cfg.out (pathName p), (env.uploadResp p).body)]
       else st.writes) := by
  by_cases h1 : (env.uploadResp p).statusCode = 201
  · by_cases h2 : (env.uploadResp p).contentLength.isSome = true
    · by_cases h3 : (env.uploadResp p).body.length = 0
      · simp [processUpload, h1, h2, h3, stepAfterError_state, RunState.addError,
          RunState.addWrite]
      · simp [processUpload, h1, h2, h3, StepResult.state, RunState.addWrite]
    · simp [processUpload, h1, h2, StepResult.state]
  · cases hE : extractErrorCause (env.uploadResp p).page with
    | error e => simp [processUpload, h1, hE, StepResult.state]
    | ok c =>
      simp [processUpload, h1, hE, stepAfterError_state, RunState.addError]

/-- The writes recorded by one loop iteration: exactly one write of the
response body to the joined output path when the file exists, carries the
.csv extension, and the response is a 201 with a Content-Length header;
no write in every other case. -/
theorem processFile_writes (cfg : Config) (env : Env) (st : RunState) (p : String) :
    (processFile cfg env st p).state.writes =
      (if env.fileExists p = true ∧ pathSuffix (pathName p) = ".csv" ∧
          (env.uploadResp p).statusCode = 201 ∧
          (env.uploadResp p).contentLength.isSome = true
       then st.writes ++ [(osPathJoin cfg.out (pathName p), (env.uploadResp p).body)]
       else st.writes) := by
  by_cases hex : env.fileExists p = false
  · simp [processFile, hex, stepAfterError_state, RunState.addError]
  · have hex1 : env.fileExists p = true := by simp at hex; exact hex
    by_cases hsuf : pathSuffix (pathName p) = ".csv"
    · rw [processFile, if_neg (by simp [hex1]), if_pos hsuf, processUpload_writes]
      simp [hex1, hsuf, RunState.addUpload]
    · simp [processFile, hex1, hsuf, stepAfterError_state, RunState.addError]

/-- C3 counterexample: a 201 response with an empty body (Content-Length 0)
still creates the output file, which afterwards exists with empty content. -/
theorem c3_counterexample :
    (envEmptyBody.uploadResp "a.csv").statusCode = 201 ∧
    (envEmptyBody.uploadResp "a.csv").body = [] ∧
    fileWritten (festerizeRun cfgN envEmptyBody ["a.csv"]).finalState "output/a.csv" = true ∧
    readOutput (festerizeRun cfgN envEmptyBody ["a.csv"]).finalState "output/a.csv" =
      some [] := by
  decide

/-- C3 amended: a file is written to the joined output path, with the
response body as content, exactly when the source file exists with a .csv
extension and the upload returned 201 with a Content-Length header present;
in particular a 201 with an empty body still creates the (empty) output
file. -/
theorem c3_amended_write_iff (cfg : Config) (env : Env) (st : RunState) (p : String) :
    (processFile cfg env st p).state.writes =
        st.writes ++ [(osPathJoin cfg.out (pathName p), (env.uploadResp p).body)] ↔
      (env.fileExists p = true ∧ pathSuffix (pathName p) = ".csv" ∧
       (env.uploadResp p).statusCode = 201 ∧
       (env.uploadResp p).contentLength.isSome = true) := by
  rw [processFile_writes]
  by_cases hc : env.fileExists p = true ∧ pathSuffix (pathName p) = ".csv" ∧
      (env.uploadResp p).statusCode = 201 ∧ (env.uploadResp p).contentLength.isSome = true
  · simp [hc]
  · simp [hc]

/-- On any page fitting one of the two described shapes, the code extraction
agrees with the cause the specification describes. -/
theorem extractErrorCause_of_specCause (page : HtmlPage) (c : String)
    (h : specCause page = some c) : extractErrorCause page = Except.ok c := by
  unfold specCause at h
  unfold extractErrorCause
  cases hm : page.errorMessage with
  | some t =>
    rw [hm] at h
    simp at h
    simp [h]
  | none =>
    rw [hm] at h
    cases ht : page.title with
    | none => rw [ht] at h; simp at h
    | some ts =>
      rw [ht] at h
      cases ts with
      | none => simp at h
      | some s =>
        simp at h
        simp [pyStr, h]

/-- C5: for a failed upload of an existing .csv source whose response page
fits one of the two described shapes, the logged and echoed message is
exactly the composed failure message, whose cause is the error-message
element text when present and otherwise the title text followed by the
reverse-proxy marker. -/
theorem c5_failure_message (cfg : Config) (env : Env) (st : RunState) (p : String)
    (c : String)
    (hex : env.fileExists p = true)
    (hsuf : pathSuffix (pathName p) = ".csv")
    (hst : (env.uploadResp p).statusCode ≠ 201)
    (hcause : specCause (env.uploadResp p).page = some c) :
    (processFile cfg env st p).state.errors =
      st.errors ++ [specFailureMessage (pathName p) c (env.uploadResp p).statusCode] := by
  have hE := extractErrorCause_of_specCause _ _ hcause
  simp [processFile, processUpload, hex, hsuf, hst, hE, stepAfterError_state,
    RunState.addUpload, RunState.addError, failureMessage, specFailureMessage]

/-- C5 witness: the framework shape with a Collection not found message and
the reverse-proxy shape with only a Bad Gateway title. -/
theorem c5_failure_message_witness :
    ((processFile cfgN envVertxError initState "a.csv").state.errors =
      initState.errors ++
        [specFailureMessage (pathName "a.csv") "Collection not found"
          (envVertxError.uploadResp "a.csv").statusCode]) ∧
    ((processFile cfgN envNginxError initState "a.csv").state.errors =
      initState.errors ++
        [specFailureMessage (pathName "a.csv") "Bad Gateway - nginx"
          (envNginxError.uploadResp "a.csv").statusCode]) :=
  ⟨c5_failure_message cfgN envVertxError initState "a.csv" "Collection not found" rfl
      (by decide) (by decide) (by decide),
   c5_failure_message cfgN envNginxError initState "a.csv" "Bad Gateway - nginx" rfl
      (by decide) (by decide) (by decide)⟩

/-- C6 counterexample: a 201 response carrying a one-byte body but no
Content-Length header makes the run crash at the header lookup, before the
output file is written: nothing is written for that upload. -/
theorem c6_counterexample :
    (envNoContentLength.uploadResp "a.csv").statusCode = 201 ∧
    (envNoContentLength.uploadResp "a.csv").body = [120] ∧
    (festerizeRun cfgN envNoContentLength ["a.csv"]).isCrashed = true ∧
    fileWritten (festerizeRun cfgN envNoContentLength ["a.csv"]).finalState
      "output/a.csv" = false := by
  decide

/-- C6 amended: for every upload of an existing .csv source returning 201
with a Content-Length header and body bytes B, exactly B is written verbatim
to the joined output path, so re-reading that output file yields B. -/
theorem c6_amended_roundtrip (cfg : Config) (env : Env) (st : RunState) (p : String)
    (hex : env.fileExists p = true)
    (hsuf : pathSuffix (pathName p) = ".csv")
    (h201 : (env.uploadResp p).statusCode = 201)
    (hcl : (env.uploadResp p).contentLength.isSome = true) :
    readOutput (processFile cfg env st p).state (osPathJoin cfg.out (pathName p)) =
      some (env.uploadResp p).body := by
  rw [readOutput, processFile_writes]
  simp [hex, hsuf, h201, hcl, List.filter_append]

/-- C6 amended witness: a successful upload writes the one-byte body and
reading the output file back yields it. -/
theorem c6_amended_roundtrip_witness :
    readOutput (processFile cfgN baseEnv initState "a.csv").state
        (osPathJoin cfgN.out (pathName "a.csv")) =
      some (baseEnv.uploadResp "a.csv").body :=
  c6_amended_roundtrip cfgN baseEnv initState "a.csv" rfl (by decide) rfl rfl

/-- C10: for every upload performed, the filename transmitted in the
multipart file part is the raw user-supplied path string, while any output
file written by that iteration goes to the output directory joined with the
derived basename only. -/
theorem c10_multipart_filename (cfg : Config) (env : Env) (st : RunState) (p : String)
    (hex : env.fileExists p = true)
    (hsuf : pathSuffix (pathName p) = ".csv") :
    (processFile cfg env st p).state.uploads = st.uploads ++ [buildRequest cfg env p] ∧
    (buildRequest cfg env p).fileName = p ∧
    ∀ w ∈ (processFile cfg env st p).state.writes,
      w ∈ st.writes ∨ w.1 = osPathJoin cfg.out (pathName p) := by
  refine ⟨?_, rfl, ?_⟩
  · rw [processFile, if_neg (by simp [hex]), if_pos hsuf, processUpload_uploads]
    simp [RunState.addUpload]
  · intro w hw
    rw [processFile_writes] at hw
    by_cases hc : env.fileExists p = true ∧ pathSuffix (pathName p) = ".csv" ∧
        (env.uploadResp p).statusCode = 201 ∧
        (env.uploadResp p).contentLength.isSome = true
    · rw [if_pos hc] at hw
      rcases List.mem_append.1 hw with h | h
      · exact Or.inl h
      · simp at h
        exact Or.inr (by rw [h])
    · rw [if_neg hc] at hw
      exact Or.inl hw

/-- C10 witness: a path with a directory component is transmitted raw in the
multipart part, while the output write goes to the basename under the output
directory. -/
theorem c10_multipart_filename_witness :
    (processFile cfgN baseEnv initState "dir/a.csv").state.uploads =
      initState.uploads ++ [buildRequest cfgN baseEnv "dir/a.csv"] ∧
    (buildRequest cfgN baseEnv "dir/a.csv").fileName = "dir/a.csv" :=
  ⟨(c10_multipart_filename cfgN baseEnv initState "dir/a.csv" rfl (by decide)).1,
   (c10_multipart_filename cfgN baseEnv initState "dir/a.csv" rfl (by decide)).2.1⟩

end Festerize





